import Mathlib

/-!
Shallow embedding of the snake-game repository (Rust) for checking its
natural-language specification.  Pure functions of the source become Lean
functions; Rust panics (index out of bounds, unwrap on None, explicit
panic! calls) become an explicit error value of type Panic; machine
integer casts (as u8, as u16) become explicit % 2 ^ 8 / % 2 ^ 16
truncation on Nat.
-/

set_option maxRecDepth 10000

/-- The distinct process-aborting panic sites of the source, used as the
error type of fallible operations. -/
inductive Panic where
  /-- Vec/slice indexing out of range (Rust index panic). -/
  | indexOutOfBounds
  /-- VecDeque front unwrap on an empty queue (game.rs line 253). -/
  | emptyQueue
  /-- panic in Packet::push_data when the payload would exceed u16::MAX. -/
  | badDataSize
  /-- panic in Direction::from on a byte that is not 0..=3. -/
  | badDirection
  /-- panic in SnakeGame::send_target on an out-of-range coordinate. -/
  | badPosition
  /-- the explicit unreachable panics of game.rs. -/
  | unreachable
deriving DecidableEq

deriving instance DecidableEq for Except

/-- direction.rs: the four headings. -/
inductive Direction where
  | Right
  | Down
  | Left
  | Up
deriving DecidableEq

/-- Direction::from (direction.rs lines 12-30): byte 0..=3 decodes to a
heading, anything else panics. -/
def Direction.fromByte (value : Nat) : Except Panic Direction :=
  match value with
  | 0x00 => .ok .Right
  | 0x01 => .ok .Down
  | 0x02 => .ok .Left
  | 0x03 => .ok .Up
  | _ => .error .badDirection

/-- Direction as u8: the discriminant values Right=0, Down=1, Left=2, Up=3. -/
def Direction.val : Direction → Nat
  | .Right => 0
  | .Down => 1
  | .Left => 2
  | .Up => 3

/-- board.rs line 3. -/
def BOARD_SIZE : Nat := 8

/-- board.rs line 4. -/
def PLAYER_CHAR : Char := '+'

/-- board.rs line 5. -/
def OPPONENT_CHAR : Char := '-'

/-- board.rs line 6. -/
def TARGET_CHAR : Char := 'o'

/-- board.rs line 7. -/
def CRASH_CHAR : Char := 'x'

/-- board.rs: the pixel grid.  Board::new builds BOARD_SIZE rows of
BOARD_SIZE blank cells. -/
structure Board where
  pixels : List (List Char)
deriving DecidableEq

/-- Board::new (board.rs lines 14-25). -/
def Board.new : Board :=
  ⟨List.replicate BOARD_SIZE (List.replicate BOARD_SIZE ' ')⟩

/-- Board::mark (board.rs lines 27-29): pixels[pos.0][pos.1] = value;
an out-of-range index is a Rust index panic. -/
def Board.mark (b : Board) (pos : Nat × Nat) (value : Char) : Except Panic Board :=
  match b.pixels.get? pos.1 with
  | some row =>
      if pos.2 < row.length then
        .ok ⟨b.pixels.set pos.1 (row.set pos.2 value)⟩
      else
        .error .indexOutOfBounds
  | none => .error .indexOutOfBounds

/-- Board::unmark (board.rs lines 31-33): pixels[pos.0][pos.1] = ' '. -/
def Board.unmark (b : Board) (pos : Nat × Nat) : Except Panic Board :=
  b.mark pos ' '

/-- Board::value (board.rs lines 35-37). -/
def Board.value (b : Board) (pos : Nat × Nat) : Except Panic Char :=
  match b.pixels.get? pos.1 with
  | some row =>
      match row.get? pos.2 with
      | some c => .ok c
      | none => .error .indexOutOfBounds
  | none => .error .indexOutOfBounds

/-- Board::is_full (board.rs lines 39-49): true iff no cell is blank and
no cell is the target character. -/
def Board.is_full (b : Board) : Bool :=
  b.pixels.all fun row => row.all fun pixel =>
    !(pixel == ' ' || pixel == TARGET_CHAR)

/-- Board::random_position (board.rs lines 51-65): collect the blank
cells of the BOARD_SIZE x BOARD_SIZE grid in row-major order and pick
index rnd % available.len(); none when no blank cell exists.  rnd stands
for the value of the random_number() call. -/
def Board.random_position (b : Board) (rnd : Nat) : Option (Nat × Nat) :=
  let available := (List.range BOARD_SIZE).flatMap fun i =>
    (List.range BOARD_SIZE).filterMap fun j =>
      if (b.pixels.getD i []).getD j CRASH_CHAR = ' ' then some (i, j) else none
  match available.isEmpty with
  | false => some (available.getD (rnd % available.length) (0, 0))
  | true => none

/-- snake.rs: a body (index 0 = head) plus a heading. -/
structure Snake where
  body : List (Nat × Nat)
  direction : Direction
deriving DecidableEq

/-- Snake::new (snake.rs lines 9-11). -/
def Snake.new (head : Nat × Nat) (direction : Direction) : Snake :=
  ⟨[head], direction⟩

/-- Snake::head (snake.rs lines 13-15): body[0]; a Rust index panic on an
empty body. -/
def Snake.headE (s : Snake) : Except Panic (Nat × Nat) :=
  match s.body with
  | h :: _ => .ok h
  | [] => .error .indexOutOfBounds

/-- Snake::tail (snake.rs lines 17-19): body[body.len() - 1]; a Rust
index panic on an empty body. -/
def Snake.tailE (s : Snake) : Except Panic (Nat × Nat) :=
  match s.body.getLast? with
  | some t => .ok t
  | none => .error .indexOutOfBounds

/-- Snake::grow (snake.rs lines 21-23): push the given coordinate. -/
def Snake.grow (s : Snake) (tail : Nat × Nat) : Snake :=
  { s with body := s.body ++ [tail] }

/-- Snake::size (snake.rs lines 25-27). -/
def Snake.size (s : Snake) : Nat :=
  s.body.length

/-- Snake::control (snake.rs lines 29-52): update the heading unless the
request is the exact opposite of the current heading. -/
def Snake.control (s : Snake) (direction : Direction) : Snake :=
  match s.direction with
  | .Right => if direction ≠ .Left then { s with direction } else s
  | .Down => if direction ≠ .Up then { s with direction } else s
  | .Left => if direction ≠ .Right then { s with direction } else s
  | .Up => if direction ≠ .Down then { s with direction } else s

/-- The head-advance arm of Snake::update (snake.rs lines 61-66): one
cell in the current heading, wrapping at the board edges. -/
def Snake.advanceHead (d : Direction) (head : Nat × Nat) : Nat × Nat :=
  match d, head with
  | .Right, (r, c) => (r, (c + 1) % BOARD_SIZE)
  | .Down, (r, c) => ((r + 1) % BOARD_SIZE, c)
  | .Left, (r, c) => (r, if c > 0 then c - 1 else BOARD_SIZE - 1)
  | .Up, (r, c) => (if r > 0 then r - 1 else BOARD_SIZE - 1, c)

/-- Snake::update (snake.rs lines 54-69): the loop runs from the tail
index down to 0, so body[i] becomes the pre-update body[i - 1] for i > 0
(each slot is written before its predecessor is touched) and body[0]
becomes the advanced head.  As a list transformation the new body is the
advanced head consed onto the old body without its last element. -/
def Snake.update (s : Snake) : Snake :=
  match s.body with
  | [] => s
  | h :: t => { s with body := Snake.advanceHead s.direction h :: (h :: t).dropLast }

/-- packet.rs line 1. -/
def PROTOCOL_ID : Nat := 0xaefdb87fe753ba07

/-- packet.rs line 2. -/
def HEADER_SIZE : Nat := 12

/-- packet.rs lines 4-9: the three opcodes. -/
inductive Opcode where
  | Sync
  | NewDirection
  | NewTarget
deriving DecidableEq

/-- Opcode as u16: the discriminant values Sync=1, NewDirection=2,
NewTarget=3 (packet.rs lines 5-8). -/
def Opcode.val : Opcode → Nat
  | .Sync => 1
  | .NewDirection => 2
  | .NewTarget => 3

/-- packet.rs lines 11-14: an opcode plus a byte payload.  Bytes are
modelled as Nat values below 256. -/
structure Packet where
  opcode : Opcode
  data : List Nat
deriving DecidableEq

/-- Packet::new (packet.rs lines 17-19): the size argument only reserves
capacity. -/
def Packet.new (opcode : Opcode) : Packet :=
  ⟨opcode, []⟩

/-- Packet::push_data (packet.rs lines 21-27): panics when the
accumulated payload would exceed u16::MAX = 65535 bytes, otherwise
appends. -/
def Packet.push_data (p : Packet) (data : List Nat) : Except Panic Packet :=
  if p.data.length + data.length > 65535 then
    .error .badDataSize
  else
    .ok { p with data := p.data ++ data }

/-- Packet::encode (packet.rs lines 37-59): 8 magic bytes, 2 opcode
bytes, 2 length bytes (all big-endian, each push truncated as u8, i.e.
% 256), then the payload. -/
def Packet.encode (p : Packet) : List Nat :=
  [(PROTOCOL_ID >>> 56) % 256, (PROTOCOL_ID >>> 48) % 256,
   (PROTOCOL_ID >>> 40) % 256, (PROTOCOL_ID >>> 32) % 256,
   (PROTOCOL_ID >>> 24) % 256, (PROTOCOL_ID >>> 16) % 256,
   (PROTOCOL_ID >>> 8) % 256, (PROTOCOL_ID >>> 0) % 256,
   (p.opcode.val >>> 8) % 256, p.opcode.val % 256,
   (p.data.length >>> 8) % 256, p.data.length % 256] ++ p.data

/-- Packet::decode (packet.rs lines 61-110): reject a buffer shorter
than the 12-byte header (the twelve-cons pattern is exactly the
len < HEADER_SIZE test), reassemble the big-endian magic, opcode and
length fields with shifted ORs as the source does, reject a wrong magic,
an unknown opcode or a length field that does not equal the trailing
byte count, and otherwise return the packet. -/
def Packet.decode (buffer : List Nat) : Option Packet :=
  match buffer with
  | b0 :: b1 :: b2 :: b3 :: b4 :: b5 :: b6 :: b7 :: b8 :: b9 :: b10 :: b11 :: rest =>
      let protocol_id :=
        b0 <<< 56 ||| b1 <<< 48 ||| b2 <<< 40 ||| b3 <<< 32 |||
        b4 <<< 24 ||| b5 <<< 16 ||| b6 <<< 8 ||| b7
      if protocol_id ≠ PROTOCOL_ID then none
      else
        let opcode := b8 <<< 8 ||| b9
        if opcode = 0x01 then
          let size := b10 <<< 8 ||| b11
          if size ≠ rest.length then none else some ⟨.Sync, rest⟩
        else if opcode = 0x02 then
          let size := b10 <<< 8 ||| b11
          if size ≠ rest.length then none else some ⟨.NewDirection, rest⟩
        else if opcode = 0x03 then
          let size := b10 <<< 8 ||| b11
          if size ≠ rest.length then none else some ⟨.NewTarget, rest⟩
        else none
  | _ => none

/-- game.rs lines 41-46: the terminal outcomes with their reason text. -/
inductive GameResult where
  | Win (msg : String)
  | Lose (msg : String)
  | Draw (msg : String)
deriving DecidableEq

/-- game.rs lines 48-56: the engine state.  The socket field collapses
to the multiplayer flag (socket.is_some()); the target VecDeque is a
list whose head is the queue front. -/
structure SnakeGame where
  board : Board
  player : Snake
  target : List (Nat × Nat)
  multiplayer : Bool
  opponent : Option Snake
  tick_id : Nat
deriving DecidableEq

/-- Queue-front read helper: VecDeque::front().unwrap() of game.rs line
253; the unwrap on an empty queue panics. -/
def frontE (q : List (Nat × Nat)) : Except Panic (Nat × Nat) :=
  match q with
  | t :: _ => .ok t
  | [] => .error .emptyQueue

/-- Byte indexing into a payload (data[i] in game.rs); out of range is a
Rust index panic. -/
def byteAt (data : List Nat) (i : Nat) : Except Panic Nat :=
  match data.get? i with
  | some b => .ok b
  | none => .error .indexOutOfBounds

/-- The bounds check of SnakeGame::send_target (game.rs lines 450-453):
an out-of-range coordinate panics before transmission.  The transmission
itself has no effect on engine state. -/
def sendTargetCheck (target : Nat × Nat) : Except Panic Unit :=
  if target.1 < BOARD_SIZE ∧ target.2 < BOARD_SIZE then .ok () else .error .badPosition

/-- The board-full size comparison of game.rs lines 302-309 and 326-333:
the outcome decided by current body lengths. -/
def sizeOutcome (playerSize oppSize : Nat) : GameResult :=
  if playerSize > oppSize then .Win "board full, player size wins"
  else if playerSize < oppSize then .Lose "board full, opponent size wins"
  else .Draw "board full, same size"

/-- The player-growth phase of SnakeGame::update (game.rs lines
319-349), reached when no opponent growth happened this tick: on landing
on the live target the player grows by its pre-shift tail, the tail cell
is re-marked, a fresh random position becomes the new target (no
position left terminates by size comparison, or by plain Win with no
opponent), the new target is marked, broadcast when networked, pushed to
the back of the queue, and the old front is popped. -/
def SnakeGame.playerGrowth (g : SnakeGame) (b : Board) (player : Snake)
    (opp : Option Snake) (ptail ph target : Nat × Nat) (rnd : Nat) :
    Except Panic (Option GameResult × SnakeGame) := do
  if ph = target then
    let player := player.grow ptail
    let b ← b.mark ptail PLAYER_CHAR
    match b.random_position rnd with
    | none =>
        match opp with
        | some o => .ok (some (sizeOutcome player.size o.size),
            { g with board := b, player := player, opponent := opp })
        | none => .ok (some (.Win "board full"),
            { g with board := b, player := player, opponent := opp })
    | some t2 => do
        let b ← b.mark t2 TARGET_CHAR
        let _ ← if g.multiplayer then sendTargetCheck t2 else .ok ()
        .ok (none,
          { g with
              board := b
              player := player
              opponent := opp
              target := (g.target ++ [t2]).tail })
  else
    .ok (none, { g with board := b, player := player, opponent := opp })

/-- SnakeGame::update (game.rs lines 248-352): one tick of movement and
collision/growth resolution.  Early returns of the source become the
.ok (some result, finalState) values; panics become .error. -/
def SnakeGame.update (g : SnakeGame) (rnd : Nat) :
    Except Panic (Option GameResult × SnakeGame) := do
  let ptail ← g.player.tailE
  let b ← g.board.unmark ptail
  let player := Snake.update g.player
  let target ← frontE g.target
  let b ← b.mark target TARGET_CHAR
  match g.opponent with
  | none => do
      let ph ← player.headE
      let px ← b.value ph
      if px = PLAYER_CHAR ∨ px = OPPONENT_CHAR then
        let b ← b.mark ph CRASH_CHAR
        .ok (some (.Lose "player crash"), { g with board := b, player := player })
      else do
        let b ← b.mark ph PLAYER_CHAR
        g.playerGrowth b player none ptail ph target rnd
  | some opp => do
      let otail ← opp.tailE
      let b ← b.unmark otail
      let opp := Snake.update opp
      let ph ← player.headE
      let oh ← opp.headE
      if ph = oh then
        let b ← b.mark ph CRASH_CHAR
        .ok (some (.Draw "heads crash"),
          { g with board := b, player := player, opponent := some opp })
      else do
        let px ← b.value ph
        if px = PLAYER_CHAR ∨ px = OPPONENT_CHAR then
          let b ← b.mark oh OPPONENT_CHAR
          let b ← b.mark ph CRASH_CHAR
          .ok (some (.Lose "player crash"),
            { g with board := b, player := player, opponent := some opp })
        else do
          let b ← b.mark ph PLAYER_CHAR
          let opx ← b.value oh
          if opx = OPPONENT_CHAR ∨ opx = PLAYER_CHAR then
            let b ← b.mark oh CRASH_CHAR
            .ok (some (.Win "opponent crash"),
              { g with board := b, player := player, opponent := some opp })
          else do
            let b ← b.mark oh OPPONENT_CHAR
            if oh = target then
              let opp := opp.grow otail
              let b ← b.mark otail OPPONENT_CHAR
              if b.is_full then
                .ok (some (sizeOutcome player.size opp.size),
                  { g with board := b, player := player, opponent := some opp })
              else
                .ok (none,
                  { g with
                      board := b
                      player := player
                      opponent := some opp
                      target := g.target.tail })
            else
              g.playerGrowth b player (some opp) ptail ph target rnd

/-- The sending side of SnakeGame::synchronize (game.rs lines 357-365):
the local tick counter as 8 big-endian bytes. -/
def syncData (tick : Nat) : List Nat :=
  [(tick >>> 56) % 256, (tick >>> 48) % 256, (tick >>> 40) % 256,
   (tick >>> 32) % 256, (tick >>> 24) % 256, (tick >>> 16) % 256,
   (tick >>> 8) % 256, tick % 256]

/-- The tick-counter reassembly of SnakeGame::synchronize (game.rs lines
387-396): data[0..8] combined big-endian; indexing a payload shorter
than 8 bytes is a Rust index panic. -/
def tickFromData (data : List Nat) : Except Panic Nat := do
  let d0 ← byteAt data 0
  let d1 ← byteAt data 1
  let d2 ← byteAt data 2
  let d3 ← byteAt data 3
  let d4 ← byteAt data 4
  let d5 ← byteAt data 5
  let d6 ← byteAt data 6
  let d7 ← byteAt data 7
  .ok (d0 <<< 56 ||| d1 <<< 48 ||| d2 <<< 40 ||| d3 <<< 32 |||
       d4 <<< 24 ||| d5 <<< 16 ||| d6 <<< 8 ||| d7)

/-- Outcome of the barrier receive loop: satisfied with the accumulated
pending queue when a matching Sync arrived, or still blocked on the
socket when the supplied packet sequence ran out before one did. -/
inductive BarrierResult where
  | satisfied (pending : List Packet)
  | blocked (pending : List Packet)
deriving DecidableEq

/-- The receive loop of SnakeGame::synchronize (game.rs lines 382-411)
run over the sequence of packets the socket delivers: a non-Sync packet
is appended to the pending queue; a Sync packet whose tick counter
equals the local one satisfies the barrier; any other Sync packet is
discarded and the loop keeps receiving. -/
def syncLoop (tick : Nat) (pending : List Packet) :
    List Packet → Except Panic BarrierResult
  | [] => .ok (.blocked pending)
  | p :: rest =>
      match p.opcode with
      | .Sync => do
          let t ← tickFromData p.data
          if t = tick then .ok (.satisfied pending) else syncLoop tick pending rest
      | _ => syncLoop tick (pending ++ [p]) rest

/-- SnakeGame::process (game.rs lines 426-442): a Sync packet here is an
explicit unreachable panic; NewDirection steers the opponent (data[0]
through Direction::from); NewTarget pushes (data[0], data[1]) onto the
back of the target queue with no bounds check. -/
def SnakeGame.process (g : SnakeGame) (p : Packet) : Except Panic SnakeGame :=
  match p.opcode with
  | .Sync => .error .unreachable
  | .NewDirection => do
      let b0 ← byteAt p.data 0
      let d ← Direction.fromByte b0
      match g.opponent with
      | some opp => .ok { g with opponent := some (opp.control d) }
      | none => .error .unreachable
  | .NewTarget => do
      let b0 ← byteAt p.data 0
      let b1 ← byteAt p.data 1
      .ok { g with target := g.target ++ [(b0, b1)] }

/-- The drain loop of SnakeGame::play (game.rs lines 190-207): apply
SnakeGame::process to each queued/received packet in order. -/
def SnakeGame.processAll (g : SnakeGame) : List Packet → Except Panic SnakeGame
  | [] => .ok g
  | p :: rest => do
      let g ← g.process p
      g.processAll rest

/-- The per-tick inputs of the loop in SnakeGame::play (game.rs lines
174-212): an optional locally queued direction, the non-Sync packets the
barrier and drain deliver this tick, and the value any random_number()
call of the tick returns. -/
structure TickInput where
  ctrl : Option Direction
  packets : List Packet
  rnd : Nat

/-- The input phase of one iteration of the loop in SnakeGame::play
(game.rs lines 175-207): increment the tick counter, steer the player by
any queued local direction, and, when networked, process the packets
delivered for this tick. -/
def SnakeGame.applyInput (g : SnakeGame) (inp : TickInput) : Except Panic SnakeGame := do
  let g := { g with tick_id := g.tick_id + 1 }
  let g := match inp.ctrl with
    | some d => { g with player := g.player.control d }
    | none => g
  if g.multiplayer then g.processAll inp.packets else .ok g

/-- One complete iteration of the loop in SnakeGame::play (game.rs lines
174-212): the input phase followed by SnakeGame::update. -/
def SnakeGame.tick (g : SnakeGame) (inp : TickInput) :
    Except Panic (Option GameResult × SnakeGame) := do
  let g1 ← g.applyInput inp
  g1.update inp.rnd

/-- The big-endian bytes of PROTOCOL_ID, as the wire header carries
them. -/
def magicBytes : List Nat :=
  [0xae, 0xfd, 0xb8, 0x7f, 0xe7, 0x53, 0xba, 0x07]

/-- The 16-bit big-endian opcode field of a wire buffer (offset 8). -/
def opcodeFieldOf (buffer : List Nat) : Nat :=
  256 * buffer.getD 8 0 + buffer.getD 9 0

/-- The 16-bit big-endian declared payload length of a wire buffer
(offset 10). -/
def sizeFieldOf (buffer : List Nat) : Nat :=
  256 * buffer.getD 10 0 + buffer.getD 11 0

/-- The payload length each opcode carries on the wire: 8 tick-counter
bytes for Sync (game.rs line 355), 1 direction byte for NewDirection
(game.rs line 445), 2 coordinate bytes for NewTarget (game.rs line
455). -/
def opcodePayloadLen : Opcode → Nat
  | .Sync => 8
  | .NewDirection => 1
  | .NewTarget => 2

/-- The spec's description of one movement step: the head advanced one
cell in the heading with both coordinates wrapped modulo BOARD_SIZE. -/
def wrapAdvance (d : Direction) (head : Nat × Nat) : Nat × Nat :=
  match d, head with
  | .Right, (r, c) => (r, (c + 1) % BOARD_SIZE)
  | .Down, (r, c) => ((r + 1) % BOARD_SIZE, c)
  | .Left, (r, c) => (r, (c + (BOARD_SIZE - 1)) % BOARD_SIZE)
  | .Up, (r, c) => ((r + (BOARD_SIZE - 1)) % BOARD_SIZE, c)

/-- A packet list containing at least one NewTarget message. -/
def hasNewTarget (ps : List Packet) : Prop :=
  ∃ p ∈ ps, p.opcode = Opcode.NewTarget

/-- The lockstep protocol's delivery guarantee, stated over the inputs of
a run: whenever a tick starts with an empty target queue (the previous
tick's opponent-growth step popped the last entry), the game is networked
and the peer's replacement NewTarget message is among the packets
delivered for this tick. -/
def lockstepDelivery : SnakeGame → List TickInput → Prop
  | _, [] => True
  | g, inp :: rest =>
      (g.target = [] → g.multiplayer = true ∧ hasNewTarget inp.packets) ∧
      (∀ r g', g.tick inp = .ok (r, g') → r = none → lockstepDelivery g' rest)

/-- The property claimed of a run: at every tick the state reached by
the input phase has a nonempty target queue, so the update's queue-front
read succeeds. -/
def frontReadsOK : SnakeGame → List TickInput → Prop
  | _, [] => True
  | g, inp :: rest =>
      (∀ g1, g.applyInput inp = .ok g1 → g1.target ≠ []) ∧
      (∀ r g', g.tick inp = .ok (r, g') → r = none → frontReadsOK g' rest)

lemma advanceHead_eq_wrapAdvance (d : Direction) (r c : Nat)
    (hr : r < BOARD_SIZE) (hc : c < BOARD_SIZE) :
    Snake.advanceHead d (r, c) = wrapAdvance d (r, c) := by
  simp only [BOARD_SIZE] at hr hc
  cases d <;> simp [Snake.advanceHead, wrapAdvance, BOARD_SIZE] <;>
    split_ifs <;> omega

/-- Claim C2: after Snake::update, every body segment at index i > 0
equals the pre-update segment at index i - 1, the body length is
unchanged, and the new head is the old head advanced one cell in the
current heading with both coordinates wrapped modulo BOARD_SIZE
(toroidal topology). -/
theorem snake_update_shift_and_wrap (s : Snake) (hne : s.body ≠ []) :
    (Snake.update s).body.length = s.body.length ∧
    (∀ i, i + 1 < s.body.length → (Snake.update s).body[i + 1]? = s.body[i]?) ∧
    (∀ r c, s.body.head? = some (r, c) → r < BOARD_SIZE → c < BOARD_SIZE →
      (Snake.update s).body.head? = some (wrapAdvance s.direction (r, c))) := by
  match hb : s.body with
  | [] => exact absurd hb hne
  | h :: t =>
    refine ⟨?_, ?_, ?_⟩
    · simp [Snake.update, hb, List.length_dropLast]
    · intro i hi
      simp only [Snake.update, hb]
      rw [List.getElem?_cons_succ, List.dropLast_eq_take, List.getElem?_take]
      simp at hi ⊢
      omega
    · intro r c hh hr hc
      simp only [hb, List.head?_cons, Option.some.injEq] at hh
      simp only [Snake.update, hb, List.head?_cons, Option.some.injEq]
      subst hh
      exact advanceHead_eq_wrapAdvance s.direction r c hr hc

/-- Witness for C2: a one-segment snake at the last column of row 3
heading Right wraps to column 0 of row 3. -/
theorem snake_update_shift_and_wrap_witness :
    (⟨[(3, 7)], Direction.Right⟩ : Snake).body ≠ [] ∧
    (Snake.update ⟨[(3, 7)], Direction.Right⟩).body.head? = some (3, 0) := by
  refine ⟨by decide, ?_⟩
  have h := (snake_update_shift_and_wrap ⟨[(3, 7)], Direction.Right⟩ (by decide)).2.2
      3 7 (by decide) (by decide) (by decide)
  simpa [wrapAdvance, BOARD_SIZE] using h

/-- Claim C8: for every population of the BOARD_SIZE x BOARD_SIZE grid,
Board::is_full returns false exactly when at least one cell is Empty
(blank) or at least one cell is Target; a Target cell counts as still
room. -/
theorem board_is_full_iff (b : Board)
    (hrows : b.pixels.length = BOARD_SIZE)
    (hcols : ∀ row ∈ b.pixels, row.length = BOARD_SIZE) :
    b.is_full = false ↔
      ∃ row ∈ b.pixels, ∃ px ∈ row, px = ' ' ∨ px = TARGET_CHAR := by
  rw [← Bool.not_eq_true]
  simp only [Board.is_full, List.all_eq_true]
  constructor
  · intro h
    push_neg at h
    obtain ⟨row, hrow, px, hpx, hval⟩ := h
    refine ⟨row, hrow, px, hpx, ?_⟩
    simp only [TARGET_CHAR] at hval ⊢
    by_cases hsp : px = ' '
    · exact Or.inl hsp
    · exact Or.inr (by simpa [hsp] using hval)
  · intro ⟨row, hrow, px, hpx, hval⟩ h
    have := h row hrow px hpx
    simp at this
    rcases hval with h1 | h1 <;> simp [h1, TARGET_CHAR] at this

/-- Witness for C8: a board that is all snake cells except one target
cell is not full. -/
theorem board_is_full_iff_witness :
    ((⟨List.replicate 8 (List.replicate 8 '+')⟩ : Board).pixels.length = BOARD_SIZE) ∧
    (⟨(List.replicate 8 (List.replicate 8 '+')).set 0 (List.replicate 8 'o')⟩ : Board).is_full = false := by
  constructor
  · decide
  · rw [board_is_full_iff _ (by decide) (by decide)]
    exact ⟨List.replicate 8 'o', by decide, 'o', by decide, by decide⟩

/-- Claim C3: for every packet built from one of the three opcodes and a
payload of the correct length for that opcode (8 bytes for Sync, 1 for
NewDirection, 2 for NewTarget), decoding the encoded buffer succeeds and
reproduces the opcode and the payload bytes exactly. -/
theorem packet_roundtrip (op : Opcode) (data : List Nat)
    (hlen : data.length = opcodePayloadLen op) :
    Packet.decode (Packet.encode ⟨op, data⟩) = some ⟨op, data⟩ := by
  cases op <;>
    simp_all [Packet.decode, Packet.encode, Opcode.val, opcodePayloadLen, PROTOCOL_ID]

/-- Witness for C3: a concrete NewTarget packet and a concrete Sync
packet survive the round trip. -/
theorem packet_roundtrip_witness :
    ([(3 : Nat), 4].length = opcodePayloadLen .NewTarget ∧
      Packet.decode (Packet.encode ⟨.NewTarget, [3, 4]⟩) = some ⟨.NewTarget, [3, 4]⟩) ∧
    ((syncData 77).length = opcodePayloadLen .Sync ∧
      Packet.decode (Packet.encode ⟨.Sync, syncData 77⟩) = some ⟨.Sync, syncData 77⟩) :=
  ⟨⟨by decide, packet_roundtrip .NewTarget [3, 4] (by decide)⟩,
   ⟨by decide, packet_roundtrip .Sync (syncData 77) (by decide)⟩⟩

lemma lor_small (x y k : Nat) (hx : x % 2 ^ k = 0) (hy : y < 2 ^ k) :
    x ||| y = x + y := by
  obtain ⟨m, rfl⟩ : ∃ m, x = 2 ^ k * m :=
    ⟨x / 2 ^ k, (Nat.mul_div_cancel' (Nat.dvd_of_mod_eq_zero hx)).symm⟩
  rw [← Nat.mul_add_lt_is_or hy m]

lemma be16_eq (a b : Nat) (hb : b < 256) : a <<< 8 ||| b = 256 * a + b := by
  rw [Nat.shiftLeft_eq]
  rw [lor_small (a * 2 ^ 8) b 8 (by omega) (by omega)]
  ring

lemma be64_eq (b0 b1 b2 b3 b4 b5 b6 b7 : Nat)
    (h1 : b1 < 256) (h2 : b2 < 256) (h3 : b3 < 256) (h4 : b4 < 256)
    (h5 : b5 < 256) (h6 : b6 < 256) (h7 : b7 < 256) :
    b0 <<< 56 ||| b1 <<< 48 ||| b2 <<< 40 ||| b3 <<< 32 |||
      b4 <<< 24 ||| b5 <<< 16 ||| b6 <<< 8 ||| b7 =
    2 ^ 56 * b0 + 2 ^ 48 * b1 + 2 ^ 40 * b2 + 2 ^ 32 * b3 +
      2 ^ 24 * b4 + 2 ^ 16 * b5 + 2 ^ 8 * b6 + b7 := by
  simp only [Nat.shiftLeft_eq]
  rw [lor_small (b0 * 2 ^ 56) (b1 * 2 ^ 48) 56 (by omega) (by nlinarith)]
  rw [lor_small (b0 * 2 ^ 56 + b1 * 2 ^ 48) (b2 * 2 ^ 40) 48 (by omega) (by nlinarith)]
  rw [lor_small _ (b3 * 2 ^ 32) 40 (by omega) (by nlinarith)]
  rw [lor_small _ (b4 * 2 ^ 24) 32 (by omega) (by nlinarith)]
  rw [lor_small _ (b5 * 2 ^ 16) 24 (by omega) (by nlinarith)]
  rw [lor_small _ (b6 * 2 ^ 8) 16 (by omega) (by nlinarith)]
  rw [lor_small _ b7 8 (by omega) (by omega)]
  ring


/-- Claim C4: Packet::decode fails exactly when the buffer is shorter
than the 12-byte header, the first 8 bytes are not the big-endian magic
constant, the 16-bit opcode field is not 1, 2 or 3, or the 16-bit
declared payload length differs from the actual trailing byte count;
otherwise it succeeds. -/

theorem packet_decode_none_iff (buffer : List Nat) (hbytes : ∀ x ∈ buffer, x < 256) :
    Packet.decode buffer = none ↔
      (buffer.length < HEADER_SIZE ∨
       buffer.take 8 ≠ magicBytes ∨
       (opcodeFieldOf buffer ≠ 1 ∧ opcodeFieldOf buffer ≠ 2 ∧ opcodeFieldOf buffer ≠ 3) ∨
       sizeFieldOf buffer ≠ buffer.length - HEADER_SIZE) := by
  match buffer with
  | [] => simp [Packet.decode, HEADER_SIZE]
  | [b0] => simp [Packet.decode, HEADER_SIZE]
  | [b0,b1] => simp [Packet.decode, HEADER_SIZE]
  | [b0,b1,b2] => simp [Packet.decode, HEADER_SIZE]
  | [b0,b1,b2,b3] => simp [Packet.decode, HEADER_SIZE]
  | [b0,b1,b2,b3,b4] => simp [Packet.decode, HEADER_SIZE]
  | [b0,b1,b2,b3,b4,b5] => simp [Packet.decode, HEADER_SIZE]
  | [b0,b1,b2,b3,b4,b5,b6] => simp [Packet.decode, HEADER_SIZE]
  | [b0,b1,b2,b3,b4,b5,b6,b7] => simp [Packet.decode, HEADER_SIZE]
  | [b0,b1,b2,b3,b4,b5,b6,b7,b8] => simp [Packet.decode, HEADER_SIZE]
  | [b0,b1,b2,b3,b4,b5,b6,b7,b8,b9] => simp [Packet.decode, HEADER_SIZE]
  | [b0,b1,b2,b3,b4,b5,b6,b7,b8,b9,b10] => simp [Packet.decode, HEADER_SIZE]
  | b0 :: b1 :: b2 :: b3 :: b4 :: b5 :: b6 :: b7 :: b8 :: b9 :: b10 :: b11 :: rest =>
    have hb : b0 < 256 ∧ b1 < 256 ∧ b2 < 256 ∧ b3 < 256 ∧ b4 < 256 ∧ b5 < 256 ∧
        b6 < 256 ∧ b7 < 256 ∧ b8 < 256 ∧ b9 < 256 ∧ b10 < 256 ∧ b11 < 256 := by
      refine ⟨?_, ?_, ?_, ?_, ?_, ?_, ?_, ?_, ?_, ?_, ?_, ?_⟩ <;>
        exact hbytes _ (by simp)
    obtain ⟨h0, h1, h2, h3, h4, h5, h6, h7, h8, h9, h10, h11⟩ := hb
    have htake : (b0 :: b1 :: b2 :: b3 :: b4 :: b5 :: b6 :: b7 :: b8 :: b9 :: b10 :: b11 :: rest).take 8 = [b0, b1, b2, b3, b4, b5, b6, b7] := by
      simp
    have hmagic : (b0 <<< 56 ||| b1 <<< 48 ||| b2 <<< 40 ||| b3 <<< 32 |||
        b4 <<< 24 ||| b5 <<< 16 ||| b6 <<< 8 ||| b7 = PROTOCOL_ID) ↔
        ([b0, b1, b2, b3, b4, b5, b6, b7] = magicBytes) := by
      rw [be64_eq b0 b1 b2 b3 b4 b5 b6 b7 h1 h2 h3 h4 h5 h6 h7]
      simp only [magicBytes, PROTOCOL_ID, List.cons.injEq, and_true]
      constructor
      · intro h
        omega
      · intro h
        omega
    have hopf : opcodeFieldOf (b0 :: b1 :: b2 :: b3 :: b4 :: b5 :: b6 :: b7 :: b8 :: b9 :: b10 :: b11 :: rest) = 256 * b8 + b9 := by
      simp [opcodeFieldOf]
    have hszf : sizeFieldOf (b0 :: b1 :: b2 :: b3 :: b4 :: b5 :: b6 :: b7 :: b8 :: b9 :: b10 :: b11 :: rest) = 256 * b10 + b11 := by
      simp [sizeFieldOf]
    have hlen : (b0 :: b1 :: b2 :: b3 :: b4 :: b5 :: b6 :: b7 :: b8 :: b9 :: b10 :: b11 :: rest).length = rest.length + 12 := by
      simp
    have hopv : b8 <<< 8 ||| b9 = 256 * b8 + b9 := be16_eq b8 b9 h9
    have hszv : b10 <<< 8 ||| b11 = 256 * b10 + b11 := be16_eq b10 b11 h11
    rw [htake, hopf, hszf, hlen]
    simp only [Packet.decode, hopv, hszv, HEADER_SIZE]
    by_cases hm : b0 <<< 56 ||| b1 <<< 48 ||| b2 <<< 40 ||| b3 <<< 32 |||
        b4 <<< 24 ||| b5 <<< 16 ||| b6 <<< 8 ||| b7 = PROTOCOL_ID
    · have hmt : [b0, b1, b2, b3, b4, b5, b6, b7] = magicBytes := hmagic.mp hm
      simp only [hm, hmt, ne_eq, not_true_eq_false, if_false, ite_false, false_or]
      by_cases ho1 : 256 * b8 + b9 = 1
      · simp only [ho1, if_true, ite_true]
        by_cases hs : 256 * b10 + b11 = rest.length
        · simp [hs]
        · simp [hs]
      · by_cases ho2 : 256 * b8 + b9 = 2
        · simp only [ho1, ho2, if_true, ite_true, if_false, ite_false]
          by_cases hs : 256 * b10 + b11 = rest.length
          · simp [hs]
          · simp [hs]
        · by_cases ho3 : 256 * b8 + b9 = 3
          · simp only [ho1, ho2, ho3, if_true, ite_true, if_false, ite_false]
            by_cases hs : 256 * b10 + b11 = rest.length
            · simp [hs]
            · simp [hs]
          · simp [ho1, ho2, ho3]
    · have hmt : ¬([b0, b1, b2, b3, b4, b5, b6, b7] = magicBytes) := fun hcon => hm (hmagic.mpr hcon)
      simp [hm, hmt]

/-- Witness for C4: a well-formed Sync frame with an empty payload is a
byte buffer that decode does not reject. -/
theorem packet_decode_none_iff_witness :
    (∀ x ∈ magicBytes ++ [0, 1, 0, 0], x < 256) ∧
    Packet.decode (magicBytes ++ [0, 1, 0, 0]) ≠ none := by
  refine ⟨by decide, ?_⟩
  intro hnone
  have h := (packet_decode_none_iff (magicBytes ++ [0, 1, 0, 0]) (by decide)).mp hnone
  revert h
  decide

/-- The length field Packet::encode writes is the payload length
truncated to 16 bits, with no check anywhere in encode. -/
lemma sizeFieldOf_encode (p : Packet) :
    sizeFieldOf (Packet.encode p) =
      256 * ((p.data.length >>> 8) % 256) + p.data.length % 256 := by
  simp [Packet.encode, sizeFieldOf, List.getD]

/-- Counterexample to C5: Packet::encode has no length check at all.  On
a packet whose payload holds 65536 bytes it does not fail: it silently
produces a frame whose 16-bit length field reads 0 instead of the
payload length, exactly what the claim says cannot happen.  (The bound
is enforced elsewhere, in Packet::push_data.) -/
theorem encode_no_length_check_counterexample :
    (⟨.Sync, List.replicate 65536 0⟩ : Packet).data.length = 65536 ∧
    sizeFieldOf (Packet.encode ⟨.Sync, List.replicate 65536 0⟩) = 0 := by
  have h : (⟨.Sync, List.replicate 65536 0⟩ : Packet).data = List.replicate 65536 0 := rfl
  constructor
  · rw [h, List.length_replicate]
  · rw [sizeFieldOf_encode, h, List.length_replicate]
    decide

/-- Claim C5 as amended: the 16-bit payload-length bound is a checked
precondition, but the check lives in Packet::push_data - the only public
way payload bytes enter a packet - not in Packet::encode: push_data
fails exactly when the accumulated payload would exceed 65535 bytes, and
for every packet within the bound the encoded frame's length field
equals the payload length. -/
theorem push_data_checks_length_bound :
    (∀ (p : Packet) (data : List Nat),
      (p.push_data data = .error .badDataSize ↔ 65535 < p.data.length + data.length)) ∧
    (∀ p : Packet, p.data.length ≤ 65535 →
      sizeFieldOf (Packet.encode p) = p.data.length) := by
  constructor
  · intro p data
    simp only [Packet.push_data]
    split_ifs with h
    · simpa using h
    · simp only [gt_iff_lt, not_lt] at h
      constructor
      · intro hcon
        exact absurd hcon (by simp)
      · intro hcon
        omega
  · intro p hlen
    rw [sizeFieldOf_encode]
    rw [Nat.shiftRight_eq_div_pow]
    omega

/-- Witness for the amended C5: push_data rejects a 65536-byte payload
on a fresh packet, and a 2-byte payload encodes with length field 2. -/
theorem push_data_checks_length_bound_witness :
    (Packet.new Opcode.Sync).push_data (List.replicate 65536 0) = .error .badDataSize ∧
    sizeFieldOf (Packet.encode ⟨.NewTarget, [3, 4]⟩) = 2 := by
  constructor
  · refine (push_data_checks_length_bound.1 (Packet.new Opcode.Sync) (List.replicate 65536 0)).mpr ?_
    have h : (Packet.new Opcode.Sync).data = [] := rfl
    rw [h, List.length_replicate]
    decide
  · exact push_data_checks_length_bound.2 ⟨.NewTarget, [3, 4]⟩ (by decide)

/-- Counterexample to C1: with local tick counter 3, a delivered
sequence whose first Sync packet carries tick 5 (a mismatch) does not
end the barrier fatally - the mismatched token is discarded, the loop
keeps receiving, and the following matching Sync satisfies the barrier,
so the result is exactly the satisfied-barrier outcome the claim rules
out. -/
theorem sync_mismatch_not_fatal_counterexample :
    (⟨.Sync, syncData 5⟩ : Packet).opcode = .Sync ∧
    tickFromData (syncData 5) = .ok 5 ∧ (5 : Nat) ≠ 3 ∧
    syncLoop 3 [] [⟨.Sync, syncData 5⟩, ⟨.Sync, syncData 3⟩] =
      .ok (.satisfied []) := by
  decide

/-- Claim C1 as amended: a received Sync packet whose tick counter does
not equal the local one is silently discarded and the barrier loop
continues receiving - there is no fatal-error path for a mismatch - while
a Sync packet whose tick counter equals the local one satisfies the
barrier. -/
theorem sync_mismatch_discarded (tick t : Nat) (pending rest : List Packet)
    (d : List Nat) (ht : tickFromData d = .ok t) :
    (t ≠ tick → syncLoop tick pending (⟨.Sync, d⟩ :: rest) = syncLoop tick pending rest) ∧
    (t = tick → syncLoop tick pending (⟨.Sync, d⟩ :: rest) = .ok (.satisfied pending)) := by
  constructor
  · intro hne
    simp [syncLoop, ht, hne, Bind.bind, Except.bind]
  · intro heq
    simp [syncLoop, ht, heq, Bind.bind, Except.bind]

/-- Witness for the amended C1: tick 5 against local tick 3 is skipped
(leaving the loop to block on an empty remainder), tick 3 satisfies. -/
theorem sync_mismatch_discarded_witness :
    tickFromData (syncData 5) = .ok 5 ∧ (5 : Nat) ≠ 3 ∧
    syncLoop 3 [] [⟨.Sync, syncData 5⟩] = .ok (.blocked []) ∧
    syncLoop 3 [] [⟨.Sync, syncData 3⟩] = .ok (.satisfied []) := by
  refine ⟨by decide, by decide, ?_, ?_⟩
  · rw [(sync_mismatch_discarded 3 5 [] [] (syncData 5) (by decide)).1 (by decide)]
    decide
  · exact (sync_mismatch_discarded 3 3 [] [] (syncData 3) (by decide)).2 rfl

/-- The multiplayer game state of claim C10: the target queue has just
been emptied by an opponent-growth pop, so the next processed NewTarget
becomes the queue front that the following tick reads. -/
def gameC10 : SnakeGame :=
  { board := Board.new
    player := ⟨[(0, 0)], .Right⟩
    target := []
    multiplayer := true
    opponent := some ⟨[(4, 4)], .Left⟩
    tick_id := 3 }

/-- Claim C10: received NewTarget coordinates are not validated.  The
wire buffer below decodes to a NewTarget packet with payload bytes 9, 9
(each at least BOARD_SIZE = 8); SnakeGame::process pushes (9, 9) onto
the target queue unchecked; the next tick's update then reaches the
out-of-bounds branch of the board indexing when marking the queue front,
even though the sending side's own send_target rejects the same
coordinate. -/
theorem new_target_unvalidated_out_of_bounds :
    Packet.decode (magicBytes ++ [0, 3, 0, 2, 9, 9]) = some ⟨.NewTarget, [9, 9]⟩ ∧
    (gameC10.process ⟨.NewTarget, [9, 9]⟩).map (fun g => g.target) = .ok [(9, 9)] ∧
    (do
      let g ← gameC10.process ⟨.NewTarget, [9, 9]⟩
      g.update 0) = .error .indexOutOfBounds ∧
    ¬((9 : Nat) < BOARD_SIZE) ∧
    sendTargetCheck (9, 9) = .error .badPosition := by
  decide

/-- Claim C6: with an opponent present, when the two heads coincide
after both snakes have advanced, SnakeGame::update marks that cell as
Crash and returns the Draw "heads crash" outcome.  The hypotheses cover
only the steps up to the head comparison: no body-collision or growth
condition is consulted, showing the check is decided first. -/
theorem heads_crash_draw (g : SnakeGame) (opp : Snake) (rnd : Nat)
    (pt tgt ot ph : Nat × Nat) (b1 b2 b3 b4 : Board)
    (hopp : g.opponent = some opp)
    (hpt : g.player.tailE = .ok pt)
    (hb1 : g.board.unmark pt = .ok b1)
    (htgt : frontE g.target = .ok tgt)
    (hb2 : b1.mark tgt TARGET_CHAR = .ok b2)
    (hot : opp.tailE = .ok ot)
    (hb3 : b2.unmark ot = .ok b3)
    (hph : (Snake.update g.player).headE = .ok ph)
    (hoh : (Snake.update opp).headE = .ok ph)
    (hb4 : b3.mark ph CRASH_CHAR = .ok b4) :
    g.update rnd = .ok (some (.Draw "heads crash"),
      { g with
          board := b4
          player := Snake.update g.player
          opponent := some (Snake.update opp) }) := by
  simp only [SnakeGame.update, hopp, hpt, hb1, htgt, hb2, hot, hb3, hph, hoh, hb4,
    Bind.bind, Except.bind]
  simp

/-- The concrete scenario of claim C6: 8 x 8 board, single-segment
player at (3, 3) heading Right, single-segment opponent at (3, 5)
heading Left, live target at (0, 0). -/
def gameC6 : SnakeGame :=
  { board := ⟨((List.replicate 8 (List.replicate 8 ' ')).set 3
        (((List.replicate 8 ' ').set 3 '+').set 5 '-')).set 0
        ((List.replicate 8 ' ').set 0 'o')⟩
    player := ⟨[(3, 3)], .Right⟩
    target := [(0, 0)]
    multiplayer := true
    opponent := some ⟨[(3, 5)], .Left⟩
    tick_id := 7 }

/-- Extract the board of a successful board operation (scenario plumbing
for witnesses only). -/
def egetBoard (e : Except Panic Board) : Board :=
  match e with
  | .ok b => b
  | .error _ => Board.new

/-- The intermediate boards of the C6 scenario tick. -/
def bC6one : Board := egetBoard (gameC6.board.unmark (3, 3))

/-- Second intermediate board of the C6 scenario tick. -/
def bC6two : Board := egetBoard (bC6one.mark (0, 0) TARGET_CHAR)

/-- Third intermediate board of the C6 scenario tick. -/
def bC6three : Board := egetBoard (bC6two.unmark (3, 5))

/-- Fourth intermediate board of the C6 scenario tick. -/
def bC6four : Board := egetBoard (bC6three.mark (3, 4) CRASH_CHAR)

/-- Witness for C6: in the concrete scenario one tick moves both heads
to (3, 4) and the engine returns Draw "heads crash". -/
theorem heads_crash_draw_witness :
    (Snake.update gameC6.player).headE = .ok (3, 4) ∧
    (Snake.update ⟨[(3, 5)], .Left⟩).headE = .ok (3, 4) ∧
    gameC6.update 0 = .ok (some (.Draw "heads crash"),
      { gameC6 with
          board := bC6four
          player := Snake.update gameC6.player
          opponent := some (Snake.update ⟨[(3, 5)], .Left⟩) }) := by
  refine ⟨by decide, by decide, ?_⟩
  exact heads_crash_draw gameC6 ⟨[(3, 5)], .Left⟩ 0 (3, 3) (0, 0) (3, 5) (3, 4)
    bC6one bC6two bC6three bC6four (by decide) (by decide) (by decide) (by decide)
    (by decide) (by decide) (by decide) (by decide) (by decide) (by decide)

/-- The opponent-growth branch of SnakeGame::update when growth fills
the board: the tick ends immediately with the outcome decided by the
current body lengths. -/
lemma growth_full_opponent_case (g : SnakeGame) (opp : Snake) (rnd : Nat)
    (pt tgt ot ph oh : Nat × Nat) (px opx : Char) (b1 b2 b3 b4 b5 b6 : Board)
    (hopp : g.opponent = some opp)
    (hpt : g.player.tailE = .ok pt)
    (hb1 : g.board.unmark pt = .ok b1)
    (htgt : frontE g.target = .ok tgt)
    (hb2 : b1.mark tgt TARGET_CHAR = .ok b2)
    (hot : opp.tailE = .ok ot)
    (hb3 : b2.unmark ot = .ok b3)
    (hph : (Snake.update g.player).headE = .ok ph)
    (hoh : (Snake.update opp).headE = .ok oh)
    (hne : ph ≠ oh)
    (hpx : b3.value ph = .ok px)
    (hpxne : ¬(px = PLAYER_CHAR ∨ px = OPPONENT_CHAR))
    (hb4 : b3.mark ph PLAYER_CHAR = .ok b4)
    (hopx : b4.value oh = .ok opx)
    (hopxne : ¬(opx = OPPONENT_CHAR ∨ opx = PLAYER_CHAR))
    (hb5 : b4.mark oh OPPONENT_CHAR = .ok b5)
    (heq : oh = tgt)
    (hb6 : b5.mark ot OPPONENT_CHAR = .ok b6)
    (hfull : b6.is_full = true) :
    g.update rnd = .ok
      (some (sizeOutcome (Snake.update g.player).size ((Snake.update opp).grow ot).size),
      { g with
          board := b6
          player := Snake.update g.player
          opponent := some ((Snake.update opp).grow ot) }) := by
  subst heq
  simp only [SnakeGame.update, hopp, hpt, hb1, htgt, hb2, hot, hb3, hph, hoh, hne,
    hpx, hpxne, hb4, hopx, hopxne, hb5, hb6, hfull, Bind.bind, Except.bind]
  simp [hne, hpxne, hopxne]

/-- The player-growth branch of SnakeGame::update when no free cell
remains for a new target and an opponent exists: the tick ends
immediately with the outcome decided by the current body lengths. -/
lemma growth_full_player_case (g : SnakeGame) (opp : Snake) (rnd : Nat)
    (pt tgt ot ph oh : Nat × Nat) (px opx : Char) (b1 b2 b3 b4 b5 b6 : Board)
    (hopp : g.opponent = some opp)
    (hpt : g.player.tailE = .ok pt)
    (hb1 : g.board.unmark pt = .ok b1)
    (htgt : frontE g.target = .ok tgt)
    (hb2 : b1.mark tgt TARGET_CHAR = .ok b2)
    (hot : opp.tailE = .ok ot)
    (hb3 : b2.unmark ot = .ok b3)
    (hph : (Snake.update g.player).headE = .ok ph)
    (hoh : (Snake.update opp).headE = .ok oh)
    (hne : ph ≠ oh)
    (hpx : b3.value ph = .ok px)
    (hpxne : ¬(px = PLAYER_CHAR ∨ px = OPPONENT_CHAR))
    (hb4 : b3.mark ph PLAYER_CHAR = .ok b4)
    (hopx : b4.value oh = .ok opx)
    (hopxne : ¬(opx = OPPONENT_CHAR ∨ opx = PLAYER_CHAR))
    (hb5 : b4.mark oh OPPONENT_CHAR = .ok b5)
    (hne2 : oh ≠ tgt)
    (hpht : ph = tgt)
    (hb6 : b5.mark pt PLAYER_CHAR = .ok b6)
    (hrnd : b6.random_position rnd = none) :
    g.update rnd = .ok
      (some (sizeOutcome ((Snake.update g.player).grow pt).size (Snake.update opp).size),
      { g with
          board := b6
          player := (Snake.update g.player).grow pt
          opponent := some (Snake.update opp) }) := by
  subst hpht
  simp only [SnakeGame.update, SnakeGame.playerGrowth, hopp, hpt, hb1, htgt, hb2, hot,
    hb3, hph, hoh, hpx, hb4, hopx, hb5, hb6, hrnd, Bind.bind, Except.bind]
  simp [hne, hne2, hpxne, hopxne, Ne.symm hne2]

/-- The player-growth branch of SnakeGame::update with no opponent:
exhausting the free cells ends the game with a plain Win. -/
lemma growth_full_solo_case (g : SnakeGame) (rnd : Nat)
    (pt tgt ph : Nat × Nat) (px : Char) (b1 b2 b3 b4 : Board)
    (hopp : g.opponent = none)
    (hpt : g.player.tailE = .ok pt)
    (hb1 : g.board.unmark pt = .ok b1)
    (htgt : frontE g.target = .ok tgt)
    (hb2 : b1.mark tgt TARGET_CHAR = .ok b2)
    (hph : (Snake.update g.player).headE = .ok ph)
    (hpx : b2.value ph = .ok px)
    (hpxne : ¬(px = PLAYER_CHAR ∨ px = OPPONENT_CHAR))
    (hb3 : b2.mark ph PLAYER_CHAR = .ok b3)
    (hpht : ph = tgt)
    (hb4 : b3.mark pt PLAYER_CHAR = .ok b4)
    (hrnd : b4.random_position rnd = none) :
    g.update rnd = .ok (some (.Win "board full"),
      { g with
          board := b4
          player := (Snake.update g.player).grow pt
          opponent := none }) := by
  subst hpht
  simp only [SnakeGame.update, SnakeGame.playerGrowth, hopp, hpt, hb1, htgt, hb2,
    hph, hpx, hb3, hb4, hrnd, Bind.bind, Except.bind]
  simp [hpxne]

/-- Claim C7: whenever growth fills the board during a tick, the tick
terminates immediately with the outcome decided by current body lengths
(longer player Win, longer opponent Lose, equal Draw): first conjunct -
the opponent grows and Board::is_full then holds; second conjunct - the
player grows and Board::random_position finds no free cell while an
opponent exists; third conjunct - with no opponent, exhausting free
cells after player growth yields the plain Win. -/
theorem growth_fills_board_outcomes :
    (∀ (g : SnakeGame) (opp : Snake) (rnd : Nat)
      (pt tgt ot ph oh : Nat × Nat) (px opx : Char) (b1 b2 b3 b4 b5 b6 : Board),
      g.opponent = some opp →
      g.player.tailE = .ok pt →
      g.board.unmark pt = .ok b1 →
      frontE g.target = .ok tgt →
      b1.mark tgt TARGET_CHAR = .ok b2 →
      opp.tailE = .ok ot →
      b2.unmark ot = .ok b3 →
      (Snake.update g.player).headE = .ok ph →
      (Snake.update opp).headE = .ok oh →
      ph ≠ oh →
      b3.value ph = .ok px →
      ¬(px = PLAYER_CHAR ∨ px = OPPONENT_CHAR) →
      b3.mark ph PLAYER_CHAR = .ok b4 →
      b4.value oh = .ok opx →
      ¬(opx = OPPONENT_CHAR ∨ opx = PLAYER_CHAR) →
      b4.mark oh OPPONENT_CHAR = .ok b5 →
      oh = tgt →
      b5.mark ot OPPONENT_CHAR = .ok b6 →
      b6.is_full = true →
      g.update rnd = .ok
        (some (sizeOutcome (Snake.update g.player).size ((Snake.update opp).grow ot).size),
        { g with
            board := b6
            player := Snake.update g.player
            opponent := some ((Snake.update opp).grow ot) })) ∧
    (∀ (g : SnakeGame) (opp : Snake) (rnd : Nat)
      (pt tgt ot ph oh : Nat × Nat) (px opx : Char) (b1 b2 b3 b4 b5 b6 : Board),
      g.opponent = some opp →
      g.player.tailE = .ok pt →
      g.board.unmark pt = .ok b1 →
      frontE g.target = .ok tgt →
      b1.mark tgt TARGET_CHAR = .ok b2 →
      opp.tailE = .ok ot →
      b2.unmark ot = .ok b3 →
      (Snake.update g.player).headE = .ok ph →
      (Snake.update opp).headE = .ok oh →
      ph ≠ oh →
      b3.value ph = .ok px →
      ¬(px = PLAYER_CHAR ∨ px = OPPONENT_CHAR) →
      b3.mark ph PLAYER_CHAR = .ok b4 →
      b4.value oh = .ok opx →
      ¬(opx = OPPONENT_CHAR ∨ opx = PLAYER_CHAR) →
      b4.mark oh OPPONENT_CHAR = .ok b5 →
      oh ≠ tgt →
      ph = tgt →
      b5.mark pt PLAYER_CHAR = .ok b6 →
      b6.random_position rnd = none →
      g.update rnd = .ok
        (some (sizeOutcome ((Snake.update g.player).grow pt).size (Snake.update opp).size),
        { g with
            board := b6
            player := (Snake.update g.player).grow pt
            opponent := some (Snake.update opp) })) ∧
    (∀ (g : SnakeGame) (rnd : Nat)
      (pt tgt ph : Nat × Nat) (px : Char) (b1 b2 b3 b4 : Board),
      g.opponent = none →
      g.player.tailE = .ok pt →
      g.board.unmark pt = .ok b1 →
      frontE g.target = .ok tgt →
      b1.mark tgt TARGET_CHAR = .ok b2 →
      (Snake.update g.player).headE = .ok ph →
      b2.value ph = .ok px →
      ¬(px = PLAYER_CHAR ∨ px = OPPONENT_CHAR) →
      b2.mark ph PLAYER_CHAR = .ok b3 →
      ph = tgt →
      b3.mark pt PLAYER_CHAR = .ok b4 →
      b4.random_position rnd = none →
      g.update rnd = .ok (some (.Win "board full"),
        { g with
            board := b4
            player := (Snake.update g.player).grow pt
            opponent := none })) := by
  refine ⟨?_, ?_, ?_⟩
  · intro g opp rnd pt tgt ot ph oh px opx b1 b2 b3 b4 b5 b6
      hopp hpt hb1 htgt hb2 hot hb3 hph hoh hne hpx hpxne hb4 hopx hopxne hb5 heq hb6 hfull
    exact growth_full_opponent_case g opp rnd pt tgt ot ph oh px opx b1 b2 b3 b4 b5 b6
      hopp hpt hb1 htgt hb2 hot hb3 hph hoh hne hpx hpxne hb4 hopx hopxne hb5 heq hb6 hfull
  · intro g opp rnd pt tgt ot ph oh px opx b1 b2 b3 b4 b5 b6
      hopp hpt hb1 htgt hb2 hot hb3 hph hoh hne hpx hpxne hb4 hopx hopxne hb5 hne2 hpht hb6 hrnd
    exact growth_full_player_case g opp rnd pt tgt ot ph oh px opx b1 b2 b3 b4 b5 b6
      hopp hpt hb1 htgt hb2 hot hb3 hph hoh hne hpx hpxne hb4 hopx hopxne hb5 hne2 hpht hb6 hrnd
  · intro g rnd pt tgt ph px b1 b2 b3 b4
      hopp hpt hb1 htgt hb2 hph hpx hpxne hb3 hpht hb4 hrnd
    exact growth_full_solo_case g rnd pt tgt ph px b1 b2 b3 b4
      hopp hpt hb1 htgt hb2 hph hpx hpxne hb3 hpht hb4 hrnd

/-- C7 scenario A: a four-segment player loop chasing its own tail, a
one-segment opponent about to land on the target at (2, 2); every other
cell is already a snake cell, so the opponent's growth fills the
board. -/
def gameC7A : SnakeGame :=
  { board := ⟨(List.replicate 8 (List.replicate 8 '+')).set 2
      (((List.replicate 8 '+').set 1 '-').set 2 'o')⟩
    player := ⟨[(0, 0), (0, 1), (1, 1), (1, 0)], .Down⟩
    target := [(2, 2)]
    multiplayer := true
    opponent := some ⟨[(2, 1)], .Right⟩
    tick_id := 9 }

/-- Intermediate boards of the C7 scenario A tick. -/
def bA1 : Board := egetBoard (gameC7A.board.unmark (1, 0))

/-- Second intermediate board of C7 scenario A. -/
def bA2 : Board := egetBoard (bA1.mark (2, 2) TARGET_CHAR)

/-- Third intermediate board of C7 scenario A. -/
def bA3 : Board := egetBoard (bA2.unmark (2, 1))

/-- Fourth intermediate board of C7 scenario A. -/
def bA4 : Board := egetBoard (bA3.mark (1, 0) PLAYER_CHAR)

/-- Fifth intermediate board of C7 scenario A. -/
def bA5 : Board := egetBoard (bA4.mark (2, 2) OPPONENT_CHAR)

/-- Sixth intermediate board of C7 scenario A. -/
def bA6 : Board := egetBoard (bA5.mark (2, 1) OPPONENT_CHAR)

/-- C7 scenario B: a one-segment player about to land on the target at
(0, 1), a four-segment opponent loop; after the player grows no blank
cell remains, and the opponent is longer. -/
def gameC7B : SnakeGame :=
  { board := ⟨(((List.replicate 8 (List.replicate 8 '+')).set 0
      ((List.replicate 8 '+').set 1 'o')).set 4
      (((List.replicate 8 '+').set 4 '-').set 5 '-')).set 5
      (((List.replicate 8 '+').set 4 '-').set 5 '-')⟩
    player := ⟨[(0, 0)], .Right⟩
    target := [(0, 1)]
    multiplayer := true
    opponent := some ⟨[(4, 4), (4, 5), (5, 5), (5, 4)], .Down⟩
    tick_id := 2 }

/-- Intermediate boards of the C7 scenario B tick. -/
def bB1 : Board := egetBoard (gameC7B.board.unmark (0, 0))

/-- Second intermediate board of C7 scenario B. -/
def bB2 : Board := egetBoard (bB1.mark (0, 1) TARGET_CHAR)

/-- Third intermediate board of C7 scenario B. -/
def bB3 : Board := egetBoard (bB2.unmark (5, 4))

/-- Fourth intermediate board of C7 scenario B. -/
def bB4 : Board := egetBoard (bB3.mark (0, 1) PLAYER_CHAR)

/-- Fifth intermediate board of C7 scenario B. -/
def bB5 : Board := egetBoard (bB4.mark (5, 4) OPPONENT_CHAR)

/-- Sixth intermediate board of C7 scenario B. -/
def bB6 : Board := egetBoard (bB5.mark (0, 0) PLAYER_CHAR)

/-- C7 scenario C: single-player, a four-segment player loop landing on
a target placed on its own vacated tail cell of an otherwise fully
occupied board. -/
def gameC7C : SnakeGame :=
  { board := ⟨List.replicate 8 (List.replicate 8 '+')⟩
    player := ⟨[(0, 0), (0, 1), (1, 1), (1, 0)], .Down⟩
    target := [(1, 0)]
    multiplayer := false
    opponent := none
    tick_id := 5 }

/-- Intermediate boards of the C7 scenario C tick. -/
def bC1 : Board := egetBoard (gameC7C.board.unmark (1, 0))

/-- Second intermediate board of C7 scenario C. -/
def bC2 : Board := egetBoard (bC1.mark (1, 0) TARGET_CHAR)

/-- Third intermediate board of C7 scenario C. -/
def bC3 : Board := egetBoard (bC2.mark (1, 0) PLAYER_CHAR)

/-- Fourth intermediate board of C7 scenario C. -/
def bC4 : Board := egetBoard (bC3.mark (1, 0) PLAYER_CHAR)

/-- Witness for C7: scenario A ends Win by greater player length (4 over
2), scenario B ends Lose by greater opponent length (4 over 2), scenario
C ends the plain single-player Win. -/
theorem growth_fills_board_outcomes_witness :
    (∃ g', gameC7A.update 0 = .ok (some (GameResult.Win "board full, player size wins"), g')) ∧
    (∃ g', gameC7B.update 0 = .ok (some (GameResult.Lose "board full, opponent size wins"), g')) ∧
    (∃ g', gameC7C.update 0 = .ok (some (GameResult.Win "board full"), g')) := by
  obtain ⟨hA, hB, hC⟩ := growth_fills_board_outcomes
  refine ⟨?_, ?_, ?_⟩
  · have h := hA gameC7A ⟨[(2, 1)], .Right⟩ 0 (1, 0) (2, 2) (2, 1) (1, 0) (2, 2) ' ' 'o'
      bA1 bA2 bA3 bA4 bA5 bA6 (by decide) (by decide) (by decide) (by decide)
      (by decide) (by decide) (by decide) (by decide) (by decide) (by decide)
      (by decide) (by decide) (by decide) (by decide) (by decide) (by decide)
      (by decide) (by decide) (by decide)
    have hs : sizeOutcome (Snake.update gameC7A.player).size
        ((Snake.update ⟨[(2, 1)], .Right⟩).grow (2, 1)).size =
        GameResult.Win "board full, player size wins" := by decide
    exact ⟨_, hs ▸ h⟩
  · have h := hB gameC7B ⟨[(4, 4), (4, 5), (5, 5), (5, 4)], .Down⟩ 0 (0, 0) (0, 1) (5, 4)
      (0, 1) (5, 4) 'o' ' ' bB1 bB2 bB3 bB4 bB5 bB6 (by decide) (by decide) (by decide)
      (by decide) (by decide) (by decide) (by decide) (by decide) (by decide) (by decide)
      (by decide) (by decide) (by decide) (by decide) (by decide) (by decide)
      (by decide) (by decide) (by decide) (by decide)
    have hs : sizeOutcome ((Snake.update gameC7B.player).grow (0, 0)).size
        (Snake.update ⟨[(4, 4), (4, 5), (5, 5), (5, 4)], .Down⟩).size =
        GameResult.Lose "board full, opponent size wins" := by decide
    exact ⟨_, hs ▸ h⟩
  · have h := hC gameC7C 0 (1, 0) (1, 0) (1, 0) 'o' bC1 bC2 bC3 bC4 (by decide) (by decide)
      (by decide) (by decide) (by decide) (by decide) (by decide) (by decide)
      (by decide) (by decide) (by decide) (by decide)
    exact ⟨_, h⟩

/-- SnakeGame::process only appends to the target queue: it preserves
nonemptiness, a NewTarget packet leaves the queue nonempty, and the
multiplayer flag is untouched. -/
lemma process_target (g : SnakeGame) (p : Packet) (g1 : SnakeGame)
    (h : g.process p = .ok g1) :
    (g.target ≠ [] → g1.target ≠ []) ∧
    (p.opcode = .NewTarget → g1.target ≠ []) ∧
    g1.multiplayer = g.multiplayer := by
  cases hop : p.opcode <;> simp only [SnakeGame.process, hop, Bind.bind, Except.bind] at h
  · injection h
  · iterate 5 (all_goals (try split at h))
    all_goals first
      | (injection h with h1; subst h1; simp)
      | injection h
  · iterate 5 (all_goals (try split at h))
    all_goals first
      | (injection h with h1; subst h1; simp)
      | injection h

/-- The drain loop preserves queue nonemptiness and establishes it when
some processed packet is a NewTarget. -/
lemma processAll_target (ps : List Packet) (g g1 : SnakeGame)
    (h : g.processAll ps = .ok g1) :
    (g.target ≠ [] → g1.target ≠ []) ∧
    (hasNewTarget ps → g1.target ≠ []) := by
  induction ps generalizing g with
  | nil =>
      simp only [SnakeGame.processAll] at h
      injection h with h1
      subst h1
      exact ⟨fun hne => hne, fun ⟨p, hp, _⟩ => absurd hp (List.not_mem_nil p)⟩
  | cons p rest ih =>
      simp only [SnakeGame.processAll, Bind.bind, Except.bind] at h
      match hg : g.process p with
      | .error e => rw [hg] at h; exact absurd h (by simp)
      | .ok gmid =>
          rw [hg] at h
          obtain ⟨hpres, hnt, _⟩ := process_target g p gmid hg
          obtain ⟨ihpres, ihnt⟩ := ih gmid h
          constructor
          · exact fun hne => ihpres (hpres hne)
          · rintro ⟨q, hq, hqop⟩
            rcases List.mem_cons.mp hq with rfl | hmem
            · exact ihpres (hnt hqop)
            · exact ihnt ⟨q, hmem, hqop⟩

/-- The tick's input phase preserves queue nonemptiness, and in a
networked game a delivered NewTarget guarantees it. -/
lemma applyInput_target (g : SnakeGame) (inp : TickInput) (g1 : SnakeGame)
    (h : g.applyInput inp = .ok g1) :
    (g.target ≠ [] → g1.target ≠ []) ∧
    (g.multiplayer = true → hasNewTarget inp.packets → g1.target ≠ []) := by
  simp only [SnakeGame.applyInput, Bind.bind, Except.bind] at h
  cases hctrl : inp.ctrl with
  | none =>
      rw [hctrl] at h
      simp only [] at h
      by_cases hmp : g.multiplayer = true
      · rw [if_pos hmp] at h
        have h2 := processAll_target inp.packets _ _ h
        exact ⟨fun hne => h2.1 hne, fun _ hnt => h2.2 hnt⟩
      · rw [if_neg hmp] at h
        injection h with h1
        subst h1
        exact ⟨fun hne => hne, fun hcon => absurd hcon hmp⟩
  | some d =>
      rw [hctrl] at h
      simp only [] at h
      by_cases hmp : g.multiplayer = true
      · rw [if_pos hmp] at h
        have h2 := processAll_target inp.packets _ _ h
        exact ⟨fun hne => h2.1 hne, fun _ hnt => h2.2 hnt⟩
      · rw [if_neg hmp] at h
        injection h with h1
        subst h1
        exact ⟨fun hne => hne, fun hcon => absurd hcon hmp⟩

/-- Claim C9: the target queue is never empty while the game runs.
Under the lockstep protocol's delivery guarantee - whenever the previous
tick's opponent-growth step popped the queue to empty, the peer's
replacement NewTarget arrives among the next tick's packets - every
tick's update finds a nonempty queue at its front read, for every run
from every starting state (the initial state's queue holds one
target). -/
theorem target_queue_never_empty (inps : List TickInput) (g : SnakeGame)
    (hdel : lockstepDelivery g inps) : frontReadsOK g inps := by
  induction inps generalizing g with
  | nil => simp [frontReadsOK]
  | cons inp rest ih =>
      simp only [lockstepDelivery] at hdel
      obtain ⟨h1, h2⟩ := hdel
      simp only [frontReadsOK]
      constructor
      · intro g1 hai
        by_cases hq : g.target = []
        · obtain ⟨hmp, hnt⟩ := h1 hq
          exact (applyInput_target g inp g1 hai).2 hmp hnt
        · exact (applyInput_target g inp g1 hai).1 hq
      · intro r g' htick hr
        exact ih g' (h2 r g' htick hr)

/-- The player-growth phase never changes the multiplayer flag. -/
lemma playerGrowth_multiplayer (g : SnakeGame) (b : Board) (player : Snake)
    (opp : Option Snake) (ptail ph target : Nat × Nat) (rnd : Nat)
    (r : Option GameResult) (g' : SnakeGame)
    (h : g.playerGrowth b player opp ptail ph target rnd = .ok (r, g')) :
    g'.multiplayer = g.multiplayer := by
  simp only [SnakeGame.playerGrowth, Bind.bind, Except.bind] at h
  iterate 10 (all_goals (try split at h))
  all_goals
    first
      | (injection h with h1; injection h1 with h2 h3; subst h3; rfl)
      | injection h

/-- SnakeGame::update never changes the multiplayer flag. -/
lemma update_multiplayer (g : SnakeGame) (rnd : Nat)
    (r : Option GameResult) (g' : SnakeGame)
    (h : g.update rnd = .ok (r, g')) :
    g'.multiplayer = g.multiplayer := by
  simp only [SnakeGame.update, Bind.bind, Except.bind] at h
  iterate 25 (all_goals (try split at h))
  all_goals (try exact playerGrowth_multiplayer _ _ _ _ _ _ _ _ _ _ h)
  all_goals
    first
      | (injection h with h1; injection h1 with h2 h3; subst h3; rfl)
      | injection h

/-- The drain loop never changes the multiplayer flag. -/
lemma processAll_multiplayer (ps : List Packet) (g g1 : SnakeGame)
    (h : g.processAll ps = .ok g1) : g1.multiplayer = g.multiplayer := by
  induction ps generalizing g with
  | nil =>
      simp only [SnakeGame.processAll] at h
      injection h with h1
      subst h1
      rfl
  | cons p rest ih =>
      simp only [SnakeGame.processAll, Bind.bind, Except.bind] at h
      match hg : g.process p with
      | .error e => rw [hg] at h; exact absurd h (by simp)
      | .ok gmid =>
          rw [hg] at h
          rw [ih gmid h, (process_target g p gmid hg).2.2]

/-- The input phase never changes the multiplayer flag. -/
lemma applyInput_multiplayer (g : SnakeGame) (inp : TickInput) (g1 : SnakeGame)
    (h : g.applyInput inp = .ok g1) : g1.multiplayer = g.multiplayer := by
  simp only [SnakeGame.applyInput, Bind.bind, Except.bind] at h
  cases hctrl : inp.ctrl with
  | none =>
      rw [hctrl] at h
      simp only [] at h
      by_cases hmp : g.multiplayer = true
      · rw [if_pos hmp] at h
        rw [processAll_multiplayer inp.packets _ _ h]
      · rw [if_neg hmp] at h
        injection h with h1
        subst h1
        rfl
  | some d =>
      rw [hctrl] at h
      simp only [] at h
      by_cases hmp : g.multiplayer = true
      · rw [if_pos hmp] at h
        rw [processAll_multiplayer inp.packets _ _ h]
      · rw [if_neg hmp] at h
        injection h with h1
        subst h1
        rfl

/-- A complete tick never changes the multiplayer flag. -/
lemma tick_multiplayer (g : SnakeGame) (inp : TickInput)
    (r : Option GameResult) (g' : SnakeGame)
    (h : g.tick inp = .ok (r, g')) : g'.multiplayer = g.multiplayer := by
  simp only [SnakeGame.tick, Bind.bind, Except.bind] at h
  match hai : g.applyInput inp with
  | .error e => rw [hai] at h; exact absurd h (by simp)
  | .ok g1 =>
      rw [hai] at h
      rw [update_multiplayer g1 inp.rnd r g' h, applyInput_multiplayer g inp g1 hai]

/-- C9 witness state: a networked game one tick away from the
opponent's landing on the live target, which pops the queue to empty. -/
def gC9 : SnakeGame :=
  { board := ⟨((List.replicate 8 (List.replicate 8 ' ')).set 0
      ((List.replicate 8 ' ').set 0 '+')).set 2
      (((List.replicate 8 ' ').set 1 '-').set 2 'o')⟩
    player := ⟨[(0, 0)], .Right⟩
    target := [(2, 2)]
    multiplayer := true
    opponent := some ⟨[(2, 1)], .Right⟩
    tick_id := 0 }

/-- First C9 witness tick: no local input, no delivered packets. -/
def inpC9one : TickInput := ⟨none, [], 0⟩

/-- Second C9 witness tick: the peer's replacement NewTarget arrives. -/
def inpC9two : TickInput := ⟨none, [⟨.NewTarget, [5, 5]⟩], 0⟩

/-- Witness for C9: a concrete two-tick run in which the first tick's
opponent growth empties the queue and the second tick's delivered
NewTarget refills it before the front read. -/
theorem target_queue_never_empty_witness :
    lockstepDelivery gC9 [inpC9one, inpC9two] ∧
    frontReadsOK gC9 [inpC9one, inpC9two] := by
  have hdel : lockstepDelivery gC9 [inpC9one, inpC9two] := by
    simp only [lockstepDelivery]
    refine ⟨fun hcon => absurd hcon (by decide),
      fun r g' htick hr => ⟨fun _ => ?_, fun _ _ _ _ => trivial⟩⟩
    constructor
    · have hm := tick_multiplayer gC9 inpC9one r g' htick
      simpa [gC9] using hm
    · exact ⟨⟨.NewTarget, [5, 5]⟩, by simp [inpC9two], rfl⟩
  exact ⟨hdel, target_queue_never_empty [inpC9one, inpC9two] gC9 hdel⟩

